import Mathlib

/-!
Verification development for the streaming speech-to-text WebSocket servers
(`server_cpp.py` and `server_streaming.py`): the segmentation buffer
(`AudioBuffer`), the periodic transcription scheduler (`periodic_transcribe`),
the stop-command branch of the session handler (`handle_streaming_client`),
and a cooperative-scheduling model of the event loop around
`transcribe_chunk`.

Time stamps (`time.time()` values) are modelled as rationals.  Audio byte
strings are modelled as `List Nat`.  The Python truthiness test
`if self.last_data_time:` on an optional float is modelled by `timeTruthy`
(false for `None` and for `0.0`).  The external ASR model call is an opaque
parameter `transcriber`; `none` stands for the `None` that
`transcribe_chunk` returns on any caught exception.
-/

set_option autoImplicit false

/-- Python truthiness of an optional float: `None` and `0.0` are falsy. -/
def timeTruthy : Option ℚ → Bool
  | none => false
  | some t => t != 0

/-- Python truthiness of `text` where `text` is `None` or a string. -/
def strTruthy : Option String → Bool
  | none => false
  | some t => t != ""

namespace Cpp

/-- State of `AudioBuffer` from `server_cpp.py` (lines 46-129). -/
structure AudioBuffer where
  buffer : List Nat
  all_text : List String
  last_data_time : Option ℚ
  last_transcribe_time : Option ℚ
  is_segment_end : Bool
  deriving Repr, DecidableEq

/-- Source `AudioBuffer.__init__`: empty buffer, no texts, no timestamps. -/
def AudioBuffer.init : AudioBuffer :=
  ⟨[], [], none, none, false⟩

/-- Source `min_data_size = 30 * 1024`. -/
def min_data_size : ℕ := 30 * 1024

/-- Source `max_interval = 2.0`. -/
def max_interval : ℚ := 2

/-- Source `silence_threshold = 1.0`. -/
def silence_threshold : ℚ := 1

/-- Source `AudioBuffer.add_data`: extend the buffer, stamp `last_data_time`. -/
def AudioBuffer.add_data (s : AudioBuffer) (data : List Nat) (now : ℚ) :
    AudioBuffer :=
  { s with buffer := s.buffer ++ data, last_data_time := some now }

/-- Source `AudioBuffer.should_transcribe` (lines 64-97), as a state transformer
returning the boolean result and the updated buffer state.  The three
branches are, in source order: the size guard, the silence trigger
(final), the interval trigger (interim) when `last_transcribe_time` is
truthy, and the first-transcription trigger (interim) otherwise. -/
def AudioBuffer.should_transcribe (s : AudioBuffer) (now : ℚ) :
    Bool × AudioBuffer :=
  if s.buffer.length < min_data_size then
    (false, s)
  else if timeTruthy s.last_data_time = true ∧
      silence_threshold ≤ now - s.last_data_time.getD 0 then
    (true, { s with is_segment_end := true, last_transcribe_time := some now })
  else if timeTruthy s.last_transcribe_time = true then
    if max_interval ≤ now - s.last_transcribe_time.getD 0 then
      (true,
        { s with is_segment_end := false, last_transcribe_time := some now })
    else
      (false, s)
  else
    if min_data_size ≤ s.buffer.length then
      (true,
        { s with is_segment_end := false, last_transcribe_time := some now })
    else
      (false, s)

/-- Source `AudioBuffer.get_data_for_transcribe` (lines 99-112): empty buffer gives
`(None, False)`; otherwise a copy of the bytes, cleared only when
`is_segment_end` is set. -/
def AudioBuffer.get_data_for_transcribe (s : AudioBuffer) :
    (Option (List Nat) × Bool) × AudioBuffer :=
  if s.buffer.length = 0 then
    ((none, false), s)
  else if s.is_segment_end then
    ((some s.buffer, true), { s with buffer := [] })
  else
    ((some s.buffer, false), s)

/-- Source `AudioBuffer.get_remaining_data` (lines 114-120): empty gives
`(None, False)`; otherwise take everything and clear. -/
def AudioBuffer.get_remaining_data (s : AudioBuffer) :
    (Option (List Nat) × Bool) × AudioBuffer :=
  if s.buffer.length = 0 then
    ((none, false), s)
  else
    ((some s.buffer, true), { s with buffer := [] })

/-- Source `AudioBuffer.add_text`: append when the text is truthy. -/
def AudioBuffer.add_text (s : AudioBuffer) (text : String) : AudioBuffer :=
  if text ≠ "" then { s with all_text := s.all_text ++ [text] } else s

/-- Source `AudioBuffer.get_full_text`: join with no separator. -/
def AudioBuffer.get_full_text (s : AudioBuffer) : String :=
  String.join s.all_text

/-- An outbound JSON message, discriminated by its `type` field; `text` and
`is_final` are present only on messages that carry them. -/
structure OutMsg where
  mtype : String
  text : Option String
  is_final : Option Bool
  deriving Repr, DecidableEq

/-- State local to one `periodic_transcribe` loop: the `transcribing` flag
plus the shared buffer. -/
structure SchedState where
  transcribing : Bool
  buf : AudioBuffer
  deriving Repr, DecidableEq

/-- Observable outcome of one wake of the `periodic_transcribe` loop:
the post-tick state, the messages sent, the list of byte blocks on which
the Transcriber was invoked, and whether an exception escaped the
`try`-block (after the `finally` ran). -/
structure TickOut where
  state : SchedState
  sent : List OutMsg
  calls : List (List Nat)
  raised : Bool
  deriving Repr, DecidableEq

/-- One wake of `periodic_transcribe` (`server_cpp.py` lines 185-217),
after `asyncio.sleep` returns.  The Transcriber is the opaque parameter
`transcriber`: `.ok none` is the `None` that `transcribe_chunk` returns on
a caught failure, `.ok (some t)` a returned text, and `.error ()` an
exception propagating out of the awaited call (the `finally` still clears
the flag).  When `transcribing` is already set the wake is a pure skip. -/
def tick (transcriber : List Nat → Except Unit (Option String))
    (s : SchedState) (now : ℚ) : TickOut :=
  if s.transcribing then
    ⟨s, [], [], false⟩
  else
    let p := s.buf.should_transcribe now
    if p.1 then
      let r := p.2.get_data_for_transcribe
      let chunk := r.1.1.getD []
      let is_end := r.1.2
      let b2 := r.2
      match transcriber chunk with
      | .error _ => ⟨⟨false, b2⟩, [], [chunk], true⟩
      | .ok textOpt =>
        if strTruthy textOpt then
          let text := textOpt.getD ""
          let b3 := if is_end then b2.add_text text else b2
          let full0 := b3.get_full_text
          let full :=
            if is_end then full0
            else if full0 ≠ "" then full0 ++ text else text
          ⟨⟨false, b3⟩, [⟨"partial", some full, some false⟩], [chunk], false⟩
        else
          ⟨⟨false, b2⟩, [], [chunk], false⟩
    else
      ⟨⟨false, p.2⟩, [], [], false⟩

/-- Observable outcome of the `stop` branch of `handle_streaming_client`. -/
structure StopOut where
  buf : AudioBuffer
  sent : List OutMsg
  calls : List (List Nat)
  session_active : Bool
  deriving Repr, DecidableEq

/-- The `stop` command branch (`server_cpp.py` lines 261-292), entered after
the scheduler task has been cancelled and its cancellation awaited.  Drains
the buffer, transcribes the remainder only when it exceeds 10240 bytes,
appends a truthy result, then sends `final` followed by `session_ended`. -/
def stop_branch (transcriber : List Nat → Option String) (b : AudioBuffer) :
    StopOut :=
  let r := b.get_remaining_data
  let b1 := r.2
  let drained :=
    match r.1.1 with
    | some rem =>
      if 10240 < rem.length then
        match transcriber rem with
        | some text =>
          (if text ≠ "" then b1.add_text text else b1, [rem])
        | none => (b1, [rem])
      else
        (b1, [])
    | none => (b1, [])
  let b2 := drained.1
  let full := b2.get_full_text
  ⟨b2,
    [⟨"final", some full, some true⟩, ⟨"session_ended", none, none⟩],
    drained.2, false⟩

/-- Session-level state held by `handle_streaming_client`: the buffer, the
`session_active` flag, and whether a live (not yet cancelled)
`periodic_transcribe` task exists for the current buffer. -/
structure SessionState where
  buf : AudioBuffer
  session_active : Bool
  scheduler_running : Bool
  deriving Repr, DecidableEq

/-- State on connection establishment: fresh buffer, `session_active =
False`, `transcribe_task = None`. -/
def SessionState.init : SessionState :=
  ⟨AudioBuffer.init, false, false⟩

/-- Inbound frames of the session protocol. -/
inductive InMsg where
  | binary (data : List Nat)
  | start
  | stop
  | ping
  | badJson
  | unknownCmd
  deriving Repr, DecidableEq

/-- One iteration of the `async for message in websocket` dispatch loop
(`server_cpp.py` lines 235-300): binary frames mark the session active and
append to the buffer without touching the scheduler task; `start` resets
the buffer and spawns the scheduler; `stop` cancels and awaits the
scheduler, then runs `stop_branch`; `ping` answers `pong`; malformed JSON
and unknown commands are ignored. -/
def handle_message (transcriber : List Nat → Option String)
    (s : SessionState) (m : InMsg) (now : ℚ) : SessionState × List OutMsg :=
  match m with
  | .binary data =>
    let s1 := if s.session_active then s else { s with session_active := true }
    ({ s1 with buf := s1.buf.add_data data now }, [])
  | .start =>
    (⟨AudioBuffer.init, true, true⟩, [⟨"session_started", none, none⟩])
  | .stop =>
    let r := stop_branch transcriber s.buf
    (⟨r.buf, false, false⟩, r.sent)
  | .ping =>
    (s, [⟨"pong", none, none⟩])
  | .badJson => (s, [])
  | .unknownCmd => (s, [])

end Cpp

namespace Streaming

/-- State of `AudioBuffer` from `server_streaming.py` (lines 44-103). -/
structure AudioBuffer where
  buffer : List Nat
  all_text : List String
  last_data_time : Option ℚ
  deriving Repr, DecidableEq

/-- Source `AudioBuffer.__init__`. -/
def AudioBuffer.init : AudioBuffer :=
  ⟨[], [], none⟩

/-- Source `min_data_size = 30 * 1024`. -/
def min_data_size : ℕ := 30 * 1024

/-- Source `silence_threshold = 1.0`. -/
def silence_threshold : ℚ := 1

/-- Source `AudioBuffer.add_data`. -/
def AudioBuffer.add_data (s : AudioBuffer) (data : List Nat) (now : ℚ) :
    AudioBuffer :=
  { s with buffer := s.buffer ++ data, last_data_time := some now }

/-- Source `AudioBuffer.should_transcribe` (lines 59-74): size guard, then the
silence trigger; no interval trigger and no state mutation. -/
def AudioBuffer.should_transcribe (s : AudioBuffer) (now : ℚ) : Bool :=
  if s.buffer.length < min_data_size then
    false
  else if timeTruthy s.last_data_time = true ∧
      silence_threshold ≤ now - s.last_data_time.getD 0 then
    true
  else
    false

/-- Source `AudioBuffer.get_segment_for_transcribe` (lines 76-82): take all bytes
and clear; `None` on an empty buffer. -/
def AudioBuffer.get_segment_for_transcribe (s : AudioBuffer) :
    Option (List Nat) × AudioBuffer :=
  if s.buffer.length = 0 then
    (none, s)
  else
    (some s.buffer, { s with buffer := [] })

/-- Source `AudioBuffer.add_text`. -/
def AudioBuffer.add_text (s : AudioBuffer) (text : String) : AudioBuffer :=
  if text ≠ "" then { s with all_text := s.all_text ++ [text] } else s

/-- Source `AudioBuffer.get_full_text`. -/
def AudioBuffer.get_full_text (s : AudioBuffer) : String :=
  String.join s.all_text

/-- Scheduler-loop state for the streaming variant. -/
structure SchedState where
  transcribing : Bool
  buf : AudioBuffer
  deriving Repr, DecidableEq

/-- Outcome of one wake of the streaming variant's loop. -/
structure TickOut where
  state : SchedState
  sent : List Cpp.OutMsg
  calls : List (List Nat)
  deriving Repr, DecidableEq

/-- One wake of `periodic_transcribe` (`server_streaming.py` lines 163-187):
skip when in flight, else on a silence trigger extract the segment
(clearing the buffer), transcribe, and on truthy text append it and send
the cumulative transcript. -/
def tick (transcriber : List Nat → Option String) (s : SchedState)
    (now : ℚ) : TickOut :=
  if s.transcribing then
    ⟨s, [], []⟩
  else if s.buf.should_transcribe now then
    let r := s.buf.get_segment_for_transcribe
    let chunk := r.1.getD []
    let b1 := r.2
    match transcriber chunk with
    | some text =>
      if text ≠ "" then
        let b2 := b1.add_text text
        ⟨⟨false, b2⟩,
          [⟨"partial", some b2.get_full_text, some false⟩], [chunk]⟩
      else
        ⟨⟨false, b1⟩, [], [chunk]⟩
    | none => ⟨⟨false, b1⟩, [], [chunk]⟩
  else
    ⟨⟨false, s.buf⟩, [], []⟩

end Streaming

namespace Coop

/-!
A cooperative-scheduling model of the per-connection asyncio event loop in
`server_cpp.py`.  Each task is a list of atomic operations; control can
move to another task only when the running task executes an operation that
actually suspends (an `await` of `asyncio.sleep`, a websocket send, or the
websocket receive in `async for`).  Plain function calls — including
`MODEL.transcribe`, which is a synchronous C call with no `await` — never
release control.
-/

/-- Atomic operations of a task, classified by whether executing them can
yield control to the event loop. -/
inductive Op where
  | sleepYield
  | sendYield
  | recvYield
  | writeTmp
  | modelTranscribe
  | unlinkTmp
  | compute
  deriving Repr, DecidableEq

/-- Only the awaited suspension points can yield control. -/
def Op.isYield : Op → Bool
  | .sleepYield => true
  | .sendYield => true
  | .recvYield => true
  | _ => false

/-- The body of `transcribe_chunk` (`server_cpp.py` lines 144-179): write
the temp file, run `MODEL.transcribe`, unlink, post-process the text.
It contains no `await` at all, hence no yield point. -/
def transcribe_chunk_ops : List Op :=
  [Op.writeTmp, Op.modelTranscribe, Op.unlinkTmp, Op.compute]

/-- One wake of the `periodic_transcribe` loop as an operation sequence:
the sleep (a yield), the ready-check and extraction (pure), the inlined
`transcribe_chunk` body, the result merge (pure), and the send (a yield). -/
def tick_ops : List Op :=
  [Op.sleepYield, Op.compute] ++ transcribe_chunk_ops ++
    [Op.compute, Op.sendYield]

/-- A two-task configuration: which task holds control (`true` = the
scheduler loop, `false` = the frame-receive loop) and the remaining
operations of each task. -/
structure Conf where
  schedHasControl : Bool
  schedOps : List Op
  recvOps : List Op
  deriving Repr, DecidableEq

/-- Cooperative small-step semantics: the task holding control executes its
next operation; control may pass to the other task only when that
operation is a yield point. -/
inductive Step : Conf → Conf → Prop where
  | schedRun {o : Op} {p q : List Op} :
      o.isYield = false → Step ⟨true, o :: p, q⟩ ⟨true, p, q⟩
  | schedYieldKeep {o : Op} {p q : List Op} :
      o.isYield = true → Step ⟨true, o :: p, q⟩ ⟨true, p, q⟩
  | schedYieldSwitch {o : Op} {p q : List Op} :
      o.isYield = true → Step ⟨true, o :: p, q⟩ ⟨false, p, q⟩
  | recvRun {o : Op} {p q : List Op} :
      o.isYield = false → Step ⟨false, p, o :: q⟩ ⟨false, p, q⟩
  | recvYieldKeep {o : Op} {p q : List Op} :
      o.isYield = true → Step ⟨false, p, o :: q⟩ ⟨false, p, q⟩
  | recvYieldSwitch {o : Op} {p q : List Op} :
      o.isYield = true → Step ⟨false, p, o :: q⟩ ⟨true, p, q⟩

/-- Reachability in `n` steps in the cooperative semantics. -/
inductive StepN : ℕ → Conf → Conf → Prop where
  | zero {c : Conf} : StepN 0 c c
  | succ {n : ℕ} {c c1 c2 : Conf} :
      Step c c1 → StepN n c1 c2 → StepN (n + 1) c c2

end Coop

/-- A 30 KB buffer state whose last data arrived at time 20 with no prior
trigger, used to instantiate trigger theorems on concrete inputs. -/
def exBufFresh : Cpp.AudioBuffer :=
  ⟨List.replicate 30720 0, [], some 20, none, false⟩

/-- A 30 KB buffer state mid-speech: last data at time 20, last trigger at
time 18, accumulated text `["你好"]`. -/
def exBufMid : Cpp.AudioBuffer :=
  ⟨List.replicate 30720 0, ["你好"], some 20, some 18, false⟩

/-- A 20000-byte leftover buffer with one accumulated segment, used for the
stop-branch theorems. -/
def exBufStop : Cpp.AudioBuffer :=
  ⟨List.replicate 20000 1, ["你好"], some 20, some 18, false⟩

/-- Example state: `exBufMid` after an interval trigger at time 20. -/
def exBufMidTrig : Cpp.AudioBuffer :=
  ⟨List.replicate 30720 0, ["你好"], some 20, some 20, false⟩

/-- Example state: `exBufMid` after a silence trigger at time 21. -/
def exBufFinTrig : Cpp.AudioBuffer :=
  ⟨List.replicate 30720 0, ["你好"], some 20, some 21, true⟩

theorem join_append_singleton (l : List String) (t : String) :
    String.join (l ++ [t]) = String.join l ++ t := by
  simp [String.join, List.foldl_append]

theorem cpp_add_text_full (b : Cpp.AudioBuffer) (t : String) :
    (b.add_text t).get_full_text = b.get_full_text ++ t := by
  by_cases ht : t = ""
  · subst ht
    simp [Cpp.AudioBuffer.add_text, Cpp.AudioBuffer.get_full_text]
  · simp [Cpp.AudioBuffer.add_text, ht, Cpp.AudioBuffer.get_full_text,
      join_append_singleton]

theorem streaming_add_text_full (b : Streaming.AudioBuffer) (t : String) :
    (b.add_text t).get_full_text = b.get_full_text ++ t := by
  by_cases ht : t = ""
  · subst ht
    simp [Streaming.AudioBuffer.add_text, Streaming.AudioBuffer.get_full_text]
  · simp [Streaming.AudioBuffer.add_text, ht,
      Streaming.AudioBuffer.get_full_text, join_append_singleton]

theorem cpp_should_transcribe_true_inv (b b1 : Cpp.AudioBuffer) (now : ℚ)
    (h : b.should_transcribe now = (true, b1)) :
    Cpp.min_data_size ≤ b.buffer.length ∧ b1.buffer = b.buffer ∧
      b1.all_text = b.all_text := by
  unfold Cpp.AudioBuffer.should_transcribe at h
  split_ifs at h with h1 h2 h3 h4 h5 <;>
    first
      | (cases h; exact ⟨Nat.not_lt.mp h1, rfl, rfl⟩)
      | (cases h)

/-- C9: whenever the pending buffer holds fewer than `minSegmentBytes`
(30 KB) bytes, `should_transcribe` returns false in both servers,
whatever the current time and whatever the stored timestamps say about
elapsed silence or elapsed time since the last trigger. -/
theorem c9_below_min_not_ready
    (b : Cpp.AudioBuffer) (bs : Streaming.AudioBuffer) (now nows : ℚ)
    (h : b.buffer.length < Cpp.min_data_size)
    (hs : bs.buffer.length < Streaming.min_data_size) :
    (b.should_transcribe now).1 = false ∧
      bs.should_transcribe nows = false := by
  constructor
  · simp [Cpp.AudioBuffer.should_transcribe, h]
  · simp [Streaming.AudioBuffer.should_transcribe, hs]

theorem c9_below_min_not_ready_witness :
    (Cpp.AudioBuffer.init.buffer.length < Cpp.min_data_size ∧
      Streaming.AudioBuffer.init.buffer.length < Streaming.min_data_size) ∧
    ((Cpp.AudioBuffer.init.should_transcribe 99).1 = false ∧
      Streaming.AudioBuffer.init.should_transcribe 99 = false) :=
  ⟨⟨by decide, by decide⟩,
    c9_below_min_not_ready Cpp.AudioBuffer.init Streaming.AudioBuffer.init
      99 99 (by decide) (by decide)⟩

/-- C8: `get_full_text` after any sequence of `add_text` calls is the
separator-free concatenation, in append order, of the texts appended so
far (in both servers); in particular two consecutive final segments with
texts 你好 and 世界 yield the cumulative transcript 你好世界. -/
theorem c8_full_text_is_concat :
    (∀ (b : Cpp.AudioBuffer) (texts : List String),
      (texts.foldl Cpp.AudioBuffer.add_text b).get_full_text
        = b.get_full_text ++ String.join texts) ∧
    (∀ (b : Streaming.AudioBuffer) (texts : List String),
      (texts.foldl Streaming.AudioBuffer.add_text b).get_full_text
        = b.get_full_text ++ String.join texts) ∧
    ((Cpp.AudioBuffer.init.add_text "你好").add_text "世界").get_full_text
        = "你好世界" ∧
    ((Streaming.AudioBuffer.init.add_text "你好").add_text
        "世界").get_full_text = "你好世界" := by
  have hj : ∀ (t : String) (ts : List String),
      String.join (t :: ts) = t ++ String.join ts := by
    intro t ts
    induction ts generalizing t with
    | nil => simp [String.join]
    | cons u us ih =>
      have h1 : String.join (t :: u :: us) = String.join ((t ++ u) :: us) := by
        simp [String.join]
      rw [h1, ih (t ++ u), ih u, String.append_assoc]
  refine ⟨?_, ?_, ?_, ?_⟩
  · intro b texts
    induction texts generalizing b with
    | nil => simp [String.join]
    | cons t ts ih =>
      rw [List.foldl_cons, ih, cpp_add_text_full, hj, String.append_assoc]
  · intro b texts
    induction texts generalizing b with
    | nil => simp [String.join]
    | cons t ts ih =>
      rw [List.foldl_cons, ih, streaming_add_text_full, hj,
        String.append_assoc]
  · rfl
  · rfl

/-- C1: a scheduler wake that begins while the `transcribing` flag of the
same session is still set performs no action at all: the buffer state is
untouched, nothing is sent, and in particular the Transcriber is not
invoked (the call list is empty and the outcome does not depend on the
Transcriber), in both servers. -/
theorem c1_single_flight
    (fc : List Nat → Except Unit (Option String))
    (fs : List Nat → Option String)
    (s : Cpp.SchedState) (ss : Streaming.SchedState) (now nows : ℚ)
    (h : s.transcribing = true) (hs : ss.transcribing = true) :
    Cpp.tick fc s now = ⟨s, [], [], false⟩ ∧
      Streaming.tick fs ss nows = ⟨ss, [], []⟩ := by
  constructor
  · simp [Cpp.tick, h]
  · simp [Streaming.tick, hs]

theorem c1_single_flight_witness :
    ((true : Bool) = true ∧ (true : Bool) = true) ∧
    (Cpp.tick (fun _ => Except.ok (some "甲")) ⟨true, exBufFresh⟩ 21
        = ⟨⟨true, exBufFresh⟩, [], [], false⟩ ∧
      Streaming.tick (fun _ => some "乙") ⟨true, Streaming.AudioBuffer.init⟩ 21
        = ⟨⟨true, Streaming.AudioBuffer.init⟩, [], []⟩) :=
  ⟨⟨rfl, rfl⟩,
    c1_single_flight (fun _ => Except.ok (some "甲")) (fun _ => some "乙")
      ⟨true, exBufFresh⟩ ⟨true, Streaming.AudioBuffer.init⟩ 21 21 rfl rfl⟩

/-- C3: `get_data_for_transcribe` on an empty buffer returns the no-data
result `(None, False)` without failing and without touching the state;
on a non-empty buffer it returns the accumulated bytes paired with the
`is_segment_end` flag left by the last `should_transcribe`, clearing only
`pending` when that flag is final and leaving the state completely
untouched when it is not. -/
theorem c3_extract_spec (b : Cpp.AudioBuffer) :
    (b.buffer.length = 0 →
      b.get_data_for_transcribe = ((none, false), b)) ∧
    (b.buffer.length ≠ 0 →
      b.get_data_for_transcribe
        = ((some b.buffer, b.is_segment_end),
           if b.is_segment_end then { b with buffer := [] } else b)) := by
  constructor
  · intro h
    simp [Cpp.AudioBuffer.get_data_for_transcribe, h]
  · intro h
    by_cases hf : b.is_segment_end
    · simp [Cpp.AudioBuffer.get_data_for_transcribe, h, hf]
    · simp [Cpp.AudioBuffer.get_data_for_transcribe, h, hf]

theorem c3_extract_spec_witness :
    (Cpp.AudioBuffer.init.get_data_for_transcribe
        = ((none, false), Cpp.AudioBuffer.init)) ∧
    ((⟨[7], ["旧"], some 3, some 2, true⟩ : Cpp.AudioBuffer).get_data_for_transcribe
        = ((some [7], true), ⟨[], ["旧"], some 3, some 2, true⟩)) ∧
    ((⟨[7], ["旧"], some 3, some 2, false⟩ : Cpp.AudioBuffer).get_data_for_transcribe
        = ((some [7], false), ⟨[7], ["旧"], some 3, some 2, false⟩)) :=
  ⟨(c3_extract_spec Cpp.AudioBuffer.init).1 (by decide),
    by
      have h := (c3_extract_spec ⟨[7], ["旧"], some 3, some 2, true⟩).2
        (by decide)
      simpa using h,
    by
      have h := (c3_extract_spec ⟨[7], ["旧"], some 3, some 2, false⟩).2
        (by decide)
      simpa using h⟩

/-- C6 counterexample: on a fresh connection (no explicit `start`
received, so `transcribe_task` is `None`), the first binary frame flips
`session_active` to true, yet no scheduler loop is running — refuting the
claim that an Active session always has the scheduler loop running. -/
theorem c6_counterexample :
    ¬ ((Cpp.handle_message (fun _ => none) Cpp.SessionState.init
          (Cpp.InMsg.binary [0]) 1).1.session_active = true →
        (Cpp.handle_message (fun _ => none) Cpp.SessionState.init
          (Cpp.InMsg.binary [0]) 1).1.scheduler_running = true) := by
  decide

/-- C6 amended: after an explicit `start` command the session is active
and the scheduler loop is running; the first binary frame of an implicit
session (no `start` received) marks the session active but does not start
the scheduler loop — it leaves the scheduler exactly as it was. -/
theorem c6_amended (f : List Nat → Option String) (s : Cpp.SessionState)
    (data : List Nat) (now : ℚ) (h : s.session_active = false) :
    ((Cpp.handle_message f s Cpp.InMsg.start now).1.session_active = true ∧
      (Cpp.handle_message f s Cpp.InMsg.start now).1.scheduler_running
        = true) ∧
    ((Cpp.handle_message f s (Cpp.InMsg.binary data) now).1.session_active
        = true ∧
      (Cpp.handle_message f s (Cpp.InMsg.binary data) now).1.scheduler_running
        = s.scheduler_running) := by
  refine ⟨⟨rfl, rfl⟩, ?_, ?_⟩ <;>
    simp [Cpp.handle_message, h]

theorem c6_amended_witness :
    (Cpp.SessionState.init.session_active = false) ∧
    (((Cpp.handle_message (fun _ => none) Cpp.SessionState.init
          Cpp.InMsg.start 1).1.session_active = true ∧
        (Cpp.handle_message (fun _ => none) Cpp.SessionState.init
          Cpp.InMsg.start 1).1.scheduler_running = true) ∧
      ((Cpp.handle_message (fun _ => none) Cpp.SessionState.init
          (Cpp.InMsg.binary [0]) 1).1.session_active = true ∧
        (Cpp.handle_message (fun _ => none) Cpp.SessionState.init
          (Cpp.InMsg.binary [0]) 1).1.scheduler_running
          = Cpp.SessionState.init.scheduler_running)) :=
  ⟨rfl, c6_amended (fun _ => none) Cpp.SessionState.init [0] 1 rfl⟩

/-- C2: with at least `minSegmentBytes` pending, `should_transcribe`
evaluates its triggers in priority order — silence at or beyond
`silenceThreshold` fires a final trigger stamping `lastTriggerAt = now`;
otherwise with a prior trigger on record an elapsed `maxInterval` fires a
non-final trigger stamping `lastTriggerAt = now`; otherwise with no prior
trigger the size threshold itself fires an immediate non-final trigger;
otherwise it returns false.  Moreover a final trigger fires once per
silence episode: after its extraction clears the buffer, every later poll
returns false until fresh data rebuilds the buffer. -/
theorem c2_trigger_priority (b : Cpp.AudioBuffer) (now ld : ℚ)
    (hmin : Cpp.min_data_size ≤ b.buffer.length)
    (hld : b.last_data_time = some ld) (hpos : 0 < ld) :
    (Cpp.silence_threshold ≤ now - ld →
      b.should_transcribe now
        = (true, { b with is_segment_end := true,
                          last_transcribe_time := some now })) ∧
    (now - ld < Cpp.silence_threshold →
      (∀ lt, b.last_transcribe_time = some lt → 0 < lt →
        (Cpp.max_interval ≤ now - lt →
          b.should_transcribe now
            = (true, { b with is_segment_end := false,
                              last_transcribe_time := some now })) ∧
        (now - lt < Cpp.max_interval →
          b.should_transcribe now = (false, b))) ∧
      (b.last_transcribe_time = none →
        b.should_transcribe now
          = (true, { b with is_segment_end := false,
                            last_transcribe_time := some now }))) ∧
    (Cpp.silence_threshold ≤ now - ld →
      ∀ now2 : ℚ,
        (((b.should_transcribe
            now).2.get_data_for_transcribe).2.should_transcribe now2).1
          = false) := by
  have hnl : ¬ (b.buffer.length < Cpp.min_data_size) := Nat.not_lt.mpr hmin
  have hfire : Cpp.silence_threshold ≤ now - ld →
      b.should_transcribe now
        = (true, { b with is_segment_end := true,
                          last_transcribe_time := some now }) := by
    intro h
    simp [Cpp.AudioBuffer.should_transcribe, hnl, hld, timeTruthy,
      ne_of_gt hpos, h]
  refine ⟨hfire, ?_, ?_⟩
  · intro h
    have hns : ¬ (Cpp.silence_threshold ≤ now - ld) := not_le.mpr h
    refine ⟨?_, ?_⟩
    · intro lt hlt hltpos
      constructor
      · intro h4
        simp [Cpp.AudioBuffer.should_transcribe, hnl, hld, hlt, timeTruthy,
          ne_of_gt hpos, ne_of_gt hltpos, hns, h4]
      · intro h4
        simp [Cpp.AudioBuffer.should_transcribe, hnl, hld, hlt, timeTruthy,
          ne_of_gt hpos, ne_of_gt hltpos, hns, not_le.mpr h4]
    · intro hnone
      simp [Cpp.AudioBuffer.should_transcribe, hnl, hld, hnone, timeTruthy,
        ne_of_gt hpos, hns, hmin]
  · intro h now2
    rw [hfire h]
    have hlen : ¬ ((b.buffer.length = 0)) := by
      have h30 : (30720 : ℕ) ≤ b.buffer.length := by
        simpa [Cpp.min_data_size] using hmin
      omega
    simp [Cpp.AudioBuffer.get_data_for_transcribe, hlen,
      Cpp.AudioBuffer.should_transcribe, Cpp.min_data_size]

theorem c2_trigger_priority_witness :
    (Cpp.min_data_size ≤ exBufFresh.buffer.length ∧
      exBufFresh.last_data_time = some 20 ∧ (0 : ℚ) < 20 ∧
      Cpp.silence_threshold ≤ 21 - 20) ∧
    (exBufFresh.should_transcribe 21
      = (true, { exBufFresh with is_segment_end := true,
                                 last_transcribe_time := some 21 })) ∧
    (((exBufFresh.should_transcribe
        21).2.get_data_for_transcribe).2.should_transcribe 25).1 = false :=
  ⟨⟨by norm_num [exBufFresh, Cpp.min_data_size], rfl, by norm_num,
      by norm_num [Cpp.silence_threshold]⟩,
    (c2_trigger_priority exBufFresh 21 20
      (by norm_num [exBufFresh, Cpp.min_data_size]) rfl (by norm_num)).1
      (by norm_num [Cpp.silence_threshold]),
    (c2_trigger_priority exBufFresh 21 20
      (by norm_num [exBufFresh, Cpp.min_data_size]) rfl (by norm_num)).2.2
      (by norm_num [Cpp.silence_threshold]) 25⟩

theorem cpp_should_all_text (b : Cpp.AudioBuffer) (now : ℚ) :
    (b.should_transcribe now).2.all_text = b.all_text := by
  unfold Cpp.AudioBuffer.should_transcribe
  split_ifs <;> rfl

/-- C4: on a tick whose Transcriber call succeeds with non-empty text, an
interim (non-final) segment produces one outbound message whose text is
the accumulated transcript concatenated with this probe's text while the
accumulator is left unchanged; a final segment first appends its text to
the accumulator and then emits exactly the accumulated transcript; and no
tick whose extracted segment is non-final (or that skips, or finds the
buffer not ready) ever changes the accumulator. -/
theorem c4_interim_vs_final
    (trans : List Nat → Except Unit (Option String)) (s : Cpp.SchedState)
    (now : ℚ) (b1 : Cpp.AudioBuffer) (t : String)
    (hfl : s.transcribing = false)
    (hready : s.buf.should_transcribe now = (true, b1))
    (ht : trans b1.buffer = Except.ok (some t)) (htne : t ≠ "") :
    (b1.is_segment_end = false →
      Cpp.tick trans s now
        = ⟨⟨false, b1⟩,
           [⟨"partial", some (b1.get_full_text ++ t), some false⟩],
           [b1.buffer], false⟩ ∧
      b1.all_text = s.buf.all_text) ∧
    (b1.is_segment_end = true →
      Cpp.tick trans s now
        = ⟨⟨false, ({ b1 with buffer := [] } : Cpp.AudioBuffer).add_text t⟩,
           [⟨"partial",
             some ((({ b1 with buffer := [] } : Cpp.AudioBuffer).add_text
               t).get_full_text), some false⟩],
           [b1.buffer], false⟩ ∧
      (({ b1 with buffer := [] } : Cpp.AudioBuffer).add_text t).all_text
        = s.buf.all_text ++ [t]) ∧
    (∀ (trans2 : List Nat → Except Unit (Option String))
        (s2 : Cpp.SchedState) (now2 : ℚ),
      s2.transcribing = true ∨ (s2.buf.should_transcribe now2).1 = false ∨
        (s2.buf.should_transcribe now2).2.is_segment_end = false →
      (Cpp.tick trans2 s2 now2).state.buf.all_text = s2.buf.all_text) := by
  obtain ⟨hm, hbuf, htext⟩ := cpp_should_transcribe_true_inv _ _ _ hready
  have hne : ¬ (b1.buffer.length = 0) := by
    rw [hbuf]
    have h30 : (30720 : ℕ) ≤ s.buf.buffer.length := by
      simpa [Cpp.min_data_size] using hm
    omega
  refine ⟨?_, ?_, ?_⟩
  · intro hfin
    refine ⟨?_, htext⟩
    simp only [Cpp.tick, hfl, hready, Cpp.AudioBuffer.get_data_for_transcribe,
      hne, hfin, if_false, if_true, Bool.false_eq_true, ite_false, ite_true,
      Option.getD_some]
    rw [ht]
    simp only [strTruthy, Option.getD_some]
    by_cases hfull : b1.get_full_text = ""
    · simp [hfull, htne]
    · simp [hfull, htne]
  · intro hfin
    constructor
    · simp only [Cpp.tick, hfl, hready,
        Cpp.AudioBuffer.get_data_for_transcribe, hne, hfin, if_false,
        if_true, Bool.false_eq_true, ite_false, ite_true, Option.getD_some]
      rw [ht]
      simp [strTruthy, htne]
    · simp [Cpp.AudioBuffer.add_text, htne, htext]
  · intro trans2 s2 now2 hcase
    by_cases hT : s2.transcribing = true
    · simp [Cpp.tick, hT]
    · have hT2 : s2.transcribing = false := by simpa using hT
      have hat : (s2.buf.should_transcribe now2).2.all_text
          = s2.buf.all_text := cpp_should_all_text s2.buf now2
      rcases hcase with h | h | h
      · exact absurd h hT
      · rcases hp : s2.buf.should_transcribe now2 with ⟨rdy, bx⟩
        rw [hp] at h hat
        simp only at h hat
        subst h
        simp [Cpp.tick, hT2, hp, hat]
      · rcases hp : s2.buf.should_transcribe now2 with ⟨rdy, bx⟩
        rw [hp] at h hat
        simp only at h hat
        cases rdy with
        | false => simp [Cpp.tick, hT2, hp, hat]
        | true =>
          obtain ⟨hm2, hbuf2, _⟩ := cpp_should_transcribe_true_inv _ _ _ hp
          have hne2 : ¬ (bx.buffer.length = 0) := by
            rw [hbuf2]
            have h30 : (30720 : ℕ) ≤ s2.buf.buffer.length := by
              simpa [Cpp.min_data_size] using hm2
            omega
          simp only [Cpp.tick, hT2, hp,
            Cpp.AudioBuffer.get_data_for_transcribe, hne2, h, if_false,
            if_true, Bool.false_eq_true, ite_false, ite_true,
            Option.getD_some]
          rcases htr : trans2 bx.buffer with e | o
          · simp [hat]
          · rcases o with _ | u
            · simp [strTruthy, hat]
            · by_cases hu : u = ""
              · simp [strTruthy, hu, hat]
              · simp [strTruthy, hu, hat]

theorem c4_interim_vs_final_witness :
    ((⟨false, exBufMid⟩ : Cpp.SchedState).transcribing = false ∧
      exBufMid.should_transcribe 20 = (true, exBufMidTrig) ∧
      exBufMid.should_transcribe 21 = (true, exBufFinTrig) ∧
      ("世界" : String) ≠ "") ∧
    (Cpp.tick (fun _ => Except.ok (some "世界")) ⟨false, exBufMid⟩ 20
        = ⟨⟨false, exBufMidTrig⟩,
           [⟨"partial", some (exBufMidTrig.get_full_text ++ "世界"),
             some false⟩],
           [exBufMidTrig.buffer], false⟩ ∧
      exBufMidTrig.all_text = exBufMid.all_text) ∧
    (Cpp.tick (fun _ => Except.ok (some "世界")) ⟨false, exBufMid⟩ 21
        = ⟨⟨false,
            ({ exBufFinTrig with buffer := [] } : Cpp.AudioBuffer).add_text
              "世界"⟩,
           [⟨"partial",
             some ((({ exBufFinTrig with buffer := [] } :
               Cpp.AudioBuffer).add_text "世界").get_full_text), some false⟩],
           [exBufFinTrig.buffer], false⟩ ∧
      (({ exBufFinTrig with buffer := [] } : Cpp.AudioBuffer).add_text
          "世界").all_text = exBufMid.all_text ++ ["世界"]) := by
  have h20 : exBufMid.should_transcribe 20 = (true, exBufMidTrig) := by
    simp only [exBufMid, exBufMidTrig, Cpp.AudioBuffer.should_transcribe,
      List.length_replicate, Cpp.min_data_size, timeTruthy, Option.getD_some]
    norm_num [Cpp.silence_threshold, Cpp.max_interval]
  have h21 : exBufMid.should_transcribe 21 = (true, exBufFinTrig) := by
    simp only [exBufMid, exBufFinTrig, Cpp.AudioBuffer.should_transcribe,
      List.length_replicate, Cpp.min_data_size, timeTruthy, Option.getD_some]
    norm_num [Cpp.silence_threshold, Cpp.max_interval]
  refine ⟨⟨rfl, h20, h21, by decide⟩, ?_, ?_⟩
  · exact (c4_interim_vs_final (fun _ => Except.ok (some "世界"))
      ⟨false, exBufMid⟩ 20 exBufMidTrig "世界" rfl h20 rfl (by decide)).1 rfl
  · exact ((c4_interim_vs_final (fun _ => Except.ok (some "世界"))
      ⟨false, exBufMid⟩ 21 exBufFinTrig "世界" rfl h21 rfl
        (by decide)).2.1 rfl)

/-- C7: on a tick whose Transcriber call fails (returns `None`), returns
empty text, or raises, nothing is sent to the peer and the accumulator is
left unchanged; and the `transcribing` flag is back to false after the
tick on every exit path — failure, empty text, exception, skip, or
not-ready — for every transcriber outcome. -/
theorem c7_failure_silent
    (trans : List Nat → Except Unit (Option String)) (s : Cpp.SchedState)
    (now : ℚ) (b1 : Cpp.AudioBuffer)
    (hfl : s.transcribing = false)
    (hready : s.buf.should_transcribe now = (true, b1)) :
    (trans b1.buffer = Except.ok none →
      (Cpp.tick trans s now).sent = [] ∧
      (Cpp.tick trans s now).state.buf.all_text = s.buf.all_text ∧
      (Cpp.tick trans s now).state.transcribing = false) ∧
    (trans b1.buffer = Except.ok (some "") →
      (Cpp.tick trans s now).sent = [] ∧
      (Cpp.tick trans s now).state.buf.all_text = s.buf.all_text ∧
      (Cpp.tick trans s now).state.transcribing = false) ∧
    (trans b1.buffer = Except.error () →
      (Cpp.tick trans s now).sent = [] ∧
      (Cpp.tick trans s now).state.buf.all_text = s.buf.all_text ∧
      (Cpp.tick trans s now).raised = true ∧
      (Cpp.tick trans s now).state.transcribing = false) ∧
    (∀ (trans2 : List Nat → Except Unit (Option String))
        (s2 : Cpp.SchedState) (now2 : ℚ),
      s2.transcribing = false →
      (Cpp.tick trans2 s2 now2).state.transcribing = false) := by
  obtain ⟨hm, hbuf, htext⟩ := cpp_should_transcribe_true_inv _ _ _ hready
  have hne : ¬ (b1.buffer.length = 0) := by
    rw [hbuf]
    have h30 : (30720 : ℕ) ≤ s.buf.buffer.length := by
      simpa [Cpp.min_data_size] using hm
    omega
  refine ⟨?_, ?_, ?_, ?_⟩
  · intro ht
    by_cases hfi : b1.is_segment_end <;>
      · simp only [Cpp.tick, hfl, hready,
          Cpp.AudioBuffer.get_data_for_transcribe, hne, hfi, if_false,
          if_true, Bool.false_eq_true, ite_false, ite_true, Option.getD_some]
        rw [ht]
        simp [strTruthy, htext]
  · intro ht
    by_cases hfi : b1.is_segment_end <;>
      · simp only [Cpp.tick, hfl, hready,
          Cpp.AudioBuffer.get_data_for_transcribe, hne, hfi, if_false,
          if_true, Bool.false_eq_true, ite_false, ite_true, Option.getD_some]
        rw [ht]
        simp [strTruthy, htext]
  · intro ht
    by_cases hfi : b1.is_segment_end <;>
      · simp only [Cpp.tick, hfl, hready,
          Cpp.AudioBuffer.get_data_for_transcribe, hne, hfi, if_false,
          if_true, Bool.false_eq_true, ite_false, ite_true, Option.getD_some]
        rw [ht]
        simp [strTruthy, htext]
  · intro trans2 s2 now2 h2
    unfold Cpp.tick
    simp only [h2, Bool.false_eq_true, if_false, ite_false]
    split
    · split <;> first | rfl | (split <;> rfl)
    · rfl

theorem c7_failure_silent_witness :
    ((⟨false, exBufMid⟩ : Cpp.SchedState).transcribing = false ∧
      exBufMid.should_transcribe 21 = (true, exBufFinTrig)) ∧
    ((Cpp.tick (fun _ => Except.ok none) ⟨false, exBufMid⟩ 21).sent = [] ∧
      (Cpp.tick (fun _ => Except.ok none)
        ⟨false, exBufMid⟩ 21).state.buf.all_text = exBufMid.all_text) ∧
    ((Cpp.tick (fun _ => Except.ok (some "")) ⟨false, exBufMid⟩ 21).sent
        = [] ∧
      (Cpp.tick (fun _ => Except.ok (some ""))
        ⟨false, exBufMid⟩ 21).state.buf.all_text = exBufMid.all_text) ∧
    ((Cpp.tick (fun _ => Except.error ()) ⟨false, exBufMid⟩ 21).sent = [] ∧
      (Cpp.tick (fun _ => Except.error ())
        ⟨false, exBufMid⟩ 21).raised = true ∧
      (Cpp.tick (fun _ => Except.error ())
        ⟨false, exBufMid⟩ 21).state.transcribing = false) := by
  have h21 : exBufMid.should_transcribe 21 = (true, exBufFinTrig) := by
    simp only [exBufMid, exBufFinTrig, Cpp.AudioBuffer.should_transcribe,
      List.length_replicate, Cpp.min_data_size, timeTruthy, Option.getD_some]
    norm_num [Cpp.silence_threshold, Cpp.max_interval]
  have w1 := (c7_failure_silent (fun _ => Except.ok none) ⟨false, exBufMid⟩
    21 exBufFinTrig rfl h21).1 rfl
  have w2 := (c7_failure_silent (fun _ => Except.ok (some ""))
    ⟨false, exBufMid⟩ 21 exBufFinTrig rfl h21).2.1 rfl
  have w3 := (c7_failure_silent (fun _ => Except.error ())
    ⟨false, exBufMid⟩ 21 exBufFinTrig rfl h21).2.2.1 rfl
  exact ⟨⟨rfl, h21⟩, ⟨w1.1, w1.2.1⟩, ⟨w2.1, w2.2.1⟩,
    ⟨w3.1, w3.2.2.1, w3.2.2.2⟩⟩

/-- C5: the `stop` branch — run after the scheduler task's cancellation has
been awaited — never invokes the Transcriber when the drained remainder is
empty or at most the 10240-byte minimum filter; above the filter it
transcribes the remainder once and appends a truthy result to the
accumulator; it always sends exactly the `final` message carrying the full
cumulative transcript followed by `session_ended`, so no transcription
message follows `session_ended`; and the post-stop session state has no
scheduler running and is no longer active. -/
theorem c5_stop_sequence
    (f : List Nat → Option String) (b : Cpp.AudioBuffer) (t : String)
    (s : Cpp.SessionState) (now : ℚ) :
    (b.buffer.length ≤ 10240 → (Cpp.stop_branch f b).calls = []) ∧
    ((Cpp.stop_branch f b).sent
      = [⟨"final", some ((Cpp.stop_branch f b).buf.get_full_text),
           some true⟩,
         ⟨"session_ended", none, none⟩]) ∧
    (10240 < b.buffer.length → f b.buffer = some t → t ≠ "" →
      (Cpp.stop_branch f b).buf.all_text = b.all_text ++ [t] ∧
      (Cpp.stop_branch f b).calls = [b.buffer]) ∧
    ((Cpp.handle_message f s Cpp.InMsg.stop now).1.scheduler_running
        = false ∧
      (Cpp.handle_message f s Cpp.InMsg.stop now).1.session_active = false ∧
      (Cpp.handle_message f s Cpp.InMsg.stop now).2
        = (Cpp.stop_branch f s.buf).sent) := by
  refine ⟨?_, rfl, ?_, rfl, rfl, rfl⟩
  · intro h
    by_cases h0 : b.buffer.length = 0
    · simp [Cpp.stop_branch, Cpp.AudioBuffer.get_remaining_data, h0]
    · simp [Cpp.stop_branch, Cpp.AudioBuffer.get_remaining_data, h0,
        Nat.not_lt.mpr h]
  · intro h1 h2 h3
    have h0 : ¬ (b.buffer.length = 0) := by omega
    constructor
    · simp only [Cpp.stop_branch, Cpp.AudioBuffer.get_remaining_data, h0,
        if_false, ite_false, ite_true]
      rw [h2]
      simp [h1, h3, Cpp.AudioBuffer.add_text]
    · simp only [Cpp.stop_branch, Cpp.AudioBuffer.get_remaining_data, h0,
        if_false, ite_false, ite_true]
      rw [h2]
      simp [h1, h3]

theorem c5_stop_sequence_witness :
    (Cpp.AudioBuffer.init.buffer.length ≤ 10240 ∧
      10240 < exBufStop.buffer.length ∧ ("世界" : String) ≠ "") ∧
    ((Cpp.stop_branch (fun _ => some "世界") Cpp.AudioBuffer.init).calls
      = []) ∧
    ((Cpp.stop_branch (fun _ => some "世界") exBufStop).buf.all_text
        = exBufStop.all_text ++ ["世界"] ∧
      (Cpp.stop_branch (fun _ => some "世界") exBufStop).calls
        = [exBufStop.buffer]) ∧
    ((Cpp.stop_branch (fun _ => some "世界") exBufStop).sent
      = [⟨"final",
           some ((Cpp.stop_branch (fun _ => some "世界")
             exBufStop).buf.get_full_text), some true⟩,
         ⟨"session_ended", none, none⟩]) ∧
    ((Cpp.handle_message (fun _ => some "世界")
        ⟨exBufStop, true, true⟩ Cpp.InMsg.stop 30).1.scheduler_running
      = false) := by
  refine ⟨⟨by decide, by norm_num [exBufStop], by decide⟩, ?_, ?_, ?_, ?_⟩
  · exact (c5_stop_sequence (fun _ => some "世界") Cpp.AudioBuffer.init
      "世界" Cpp.SessionState.init 30).1 (by decide)
  · exact (c5_stop_sequence (fun _ => some "世界") exBufStop "世界"
      Cpp.SessionState.init 30).2.2.1 (by norm_num [exBufStop]) rfl
      (by decide)
  · exact (c5_stop_sequence (fun _ => some "世界") exBufStop "世界"
      Cpp.SessionState.init 30).2.1
  · exact (c5_stop_sequence (fun _ => some "世界") exBufStop "世界"
      ⟨exBufStop, true, true⟩ 30).2.2.2.1

theorem coop_block_atomic :
    ∀ (ops rest q : List Coop.Op),
      (∀ o ∈ ops, o.isYield = false) →
      ∀ (n : ℕ) (c' : Coop.Conf), n ≤ ops.length →
        Coop.StepN n ⟨true, ops ++ rest, q⟩ c' →
        c' = ⟨true, ops.drop n ++ rest, q⟩ := by
  intro ops
  induction ops with
  | nil =>
    intro rest q _ n c' hn hs
    have hn0 : n = 0 := Nat.le_zero.mp hn
    subst hn0
    cases hs
    simp
  | cons o ops ih =>
    intro rest q hny n c' hn hs
    cases hs with
    | zero => simp
    | succ hstep hrest =>
      cases hstep with
      | schedRun hno =>
        have h2 := ih rest q (fun x hx => hny x (List.mem_cons_of_mem o hx))
          _ c' (Nat.le_of_succ_le_succ hn) hrest
        simpa using h2
      | schedYieldKeep hy =>
        have hno := hny o (List.mem_cons_self o ops)
        rw [hno] at hy
        simp at hy
      | schedYieldSwitch hy =>
        have hno := hny o (List.mem_cons_self o ops)
        rw [hno] at hy
        simp at hy

/-- C10 (divergence demonstration, refuting the claim on the code): the
body of `transcribe_chunk` contains no yield point — `MODEL.transcribe`
is a plain synchronous call with no `await` — so in the cooperative
event-loop semantics every execution that enters `transcribe_chunk`
keeps control in the scheduler task and leaves the receive loop's pending
operations untouched for the entire model-inference block: the frame
receive loop is blocked while the Transcriber call is in flight. -/
theorem c10_receive_loop_blocked :
    (∀ o ∈ Coop.transcribe_chunk_ops, o.isYield = false) ∧
    (∀ (rest q : List Coop.Op) (n : ℕ) (c' : Coop.Conf),
      n ≤ Coop.transcribe_chunk_ops.length →
      Coop.StepN n ⟨true, Coop.transcribe_chunk_ops ++ rest, q⟩ c' →
      c' = ⟨true, Coop.transcribe_chunk_ops.drop n ++ rest, q⟩) := by
  constructor
  · decide
  · intro rest q n c' hn hs
    exact coop_block_atomic Coop.transcribe_chunk_ops rest q (by decide)
      n c' hn hs

theorem c10_receive_loop_blocked_witness :
    (1 ≤ Coop.transcribe_chunk_ops.length ∧
      Coop.StepN 1
        ⟨true, Coop.transcribe_chunk_ops ++ [Coop.Op.sendYield],
          [Coop.Op.recvYield]⟩
        ⟨true, [Coop.Op.modelTranscribe, Coop.Op.unlinkTmp, Coop.Op.compute,
            Coop.Op.sendYield], [Coop.Op.recvYield]⟩) ∧
    (⟨true, [Coop.Op.modelTranscribe, Coop.Op.unlinkTmp, Coop.Op.compute,
        Coop.Op.sendYield], [Coop.Op.recvYield]⟩ : Coop.Conf)
      = ⟨true, Coop.transcribe_chunk_ops.drop 1 ++ [Coop.Op.sendYield],
          [Coop.Op.recvYield]⟩ := by
  have hstep : Coop.StepN 1
      ⟨true, Coop.transcribe_chunk_ops ++ [Coop.Op.sendYield],
        [Coop.Op.recvYield]⟩
      ⟨true, [Coop.Op.modelTranscribe, Coop.Op.unlinkTmp, Coop.Op.compute,
          Coop.Op.sendYield], [Coop.Op.recvYield]⟩ :=
    Coop.StepN.succ (Coop.Step.schedRun (by decide)) Coop.StepN.zero
  exact ⟨⟨by decide, hstep⟩,
    c10_receive_loop_blocked.2 [Coop.Op.sendYield] [Coop.Op.recvYield] 1 _
      (by decide) hstep⟩

theorem c8_full_text_is_concat_witness :
    (["你好", "世界"].foldl Cpp.AudioBuffer.add_text
        Cpp.AudioBuffer.init).get_full_text
      = Cpp.AudioBuffer.init.get_full_text ++ String.join ["你好", "世界"] :=
  c8_full_text_is_concat.1 Cpp.AudioBuffer.init ["你好", "世界"]
